import Mathlib

/-! Verification development for the cpptester library (`tester.h`).

The C++ library dispatches comparison and stringification at compile time
through `if constexpr` chains over concepts (capability probes on the argument
types).  The shallow embedding reifies each capability as an optional function
in a capability record, so that one Lean definition covers every instantiation
of the template: a `none` field models a type (pair) for which the concept
fails, a `some f` field models a type (pair) for which it holds, with `f` the
operation the C++ code would call. -/

namespace TesterLib

/-- Message severities, from `enum MessageType` in tester.h. -/
inductive MessageType where
  | LOG
  | WARNING
  | SEVERE
  | FAIL
  deriving DecidableEq, Repr

/-- Group statuses, from `enum TestResultStatus` in tester.h. -/
inductive TestResultStatus where
  | SUCCESS
  | FAILURE
  | DNF
  | SUCCESS_EARLY
  | FAILURE_EARLY
  deriving DecidableEq, Repr

/-- Capabilities of one type `α` as probed by `CommonLib::toString`
(tester.h, lines 213-243):
`streamIns` models `oStreamInsertionAbility` together with what
`stream << x` prints; `isBoolType` models `std::is_same<T, bool>`;
`toStringFn` models `hasToString`; `addrOf` is the storage address of the
value, printed by the fallback branch. -/
structure ShowCaps (α : Type) where
  streamIns : Option (α → String)
  isBoolType : Bool
  boolView : α → Bool
  toStringFn : Option (α → String)
  addrOf : α → String

/-- `CommonLib::toString` (tester.h, lines 227-243): the stringifier's
capability-priority chain, in source order: (1) stream insertion,
(2) the `bool` special case, (3) a user `toString()`, (4) the address
placeholder `"*" + address`. -/
def cppToString {α : Type} (c : ShowCaps α) (x : α) : String :=
  match c.streamIns with
  | some ins => ins x
  | none =>
    if c.isBoolType then (if c.boolView x then "true" else "false")
    else
      match c.toStringFn with
      | some ts => ts x
      | none => "*" ++ c.addrOf x

/-- Capabilities of a pair of types `α` (actual) and `β` (expected) as probed
by `CommonLib::isEqual` (tester.h, lines 163-207): `strViewA`/`strViewB`
model `canBeStringCompared` (both must convert to `std::string`); `eqOp`
models `hasEqualsOperator` evaluated as `expected == actual`; `eqFn` models
`hasEquals` evaluated as `actual.equals(expected)`.  `showA`/`showB` are the
`CommonLib::toString` capabilities of the two types, used by the fallback. -/
structure CompareCaps (α β : Type) where
  showA : ShowCaps α
  showB : ShowCaps β
  strViewA : Option (α → String)
  strViewB : Option (β → String)
  eqOp : Option (β → α → Bool)
  eqFn : Option (α → β → Bool)

/-- The message of the `std::invalid_argument` thrown by the alias check in
`CommonLib::isEqual` (tester.h, line 203). -/
def aliasThrowMsg : String :=
  "\x1b[38;2;255;0;0mActual and expected refer to the same address and this is not allowed by THROW_ON_ALIAS (this means that there is no operator== nor equals method that is compatible with the types)\x1b[0m"

/-- `CommonLib::isEqual` (tester.h, lines 189-207).  The `if constexpr`
chain in source order: (1) `canBeStringCompared` compares the two string
views, (2) `hasEqualsOperator` evaluates `expected == actual`,
(3) `hasEquals` evaluates `actual.equals(expected)`, (4) the fallback
stringifies both sides, and when `throwOnAlias` is set and they match it
throws `std::invalid_argument` (modelled as `Except.error`). -/
def isEqual {α β : Type} (c : CompareCaps α β) (actual : α) (expected : β)
    (throwOnAlias : Bool) : Except String Bool :=
  match c.strViewA, c.strViewB with
  | some fa, some fb => Except.ok (fb expected == fa actual)
  | _, _ =>
    match c.eqOp with
    | some op => Except.ok (op expected actual)
    | none =>
      match c.eqFn with
      | some f => Except.ok (f actual expected)
      | none =>
        let res := cppToString c.showB expected == cppToString c.showA actual
        if throwOnAlias && res then Except.error aliasThrowMsg
        else Except.ok res

/-- `CommonLib::isEqual` as called with the default `throwOnAlias = false`
(it then never throws); used by the sequence runners. -/
def isEqualB {α β : Type} (c : CompareCaps α β) (actual : α) (expected : β) : Bool :=
  match isEqual c actual expected false with
  | Except.ok s => s
  | Except.error _ => false

/-- A `ShowCaps` for a C++ type with no printing capability at all
(no stream insertion, not `bool`, no `toString()`): only the address
fallback applies. -/
def addrOnlyShow : ShowCaps Unit :=
  { streamIns := none, isBoolType := false, boolView := fun _ => false,
    toStringFn := none, addrOf := fun _ => "0xdead" }

/-- A pair of types that are not string-convertible but support both a
user-defined `equals` (always true) and a native `==` (always false):
the discriminating instantiation for the resolution order of
`CommonLib::isEqual`. -/
def bothOpsCaps : CompareCaps Unit Unit :=
  { showA := addrOnlyShow, showB := addrOnlyShow,
    strViewA := none, strViewB := none,
    eqOp := some (fun _ _ => false), eqFn := some (fun _ _ => true) }

/-- A pair of types with none of the three capabilities: only the
stringify-and-compare fallback applies, and both sides render to the same
address placeholder. -/
def fallbackCaps : CompareCaps Unit Unit :=
  { showA := addrOnlyShow, showB := addrOnlyShow,
    strViewA := none, strViewB := none, eqOp := none, eqFn := none }

/-- Claim C1, counterexample: for a pair of types that are not
string-convertible and support both a user-defined `equals` (returning true)
and a native `==` (returning false), `CommonLib::isEqual` returns the result
of `==` (false), not the result of `equals` (true): the code tries the
native equality operator before the `equals` capability, contradicting the
claimed order. -/
theorem isEqual_eqOp_before_eqFn_cex :
    bothOpsCaps.strViewA = none ∧ bothOpsCaps.strViewB = none
    ∧ bothOpsCaps.eqFn = some (fun _ _ => true)
    ∧ bothOpsCaps.eqOp = some (fun _ _ => false)
    ∧ isEqual bothOpsCaps () () false = Except.ok false
    ∧ (Except.ok false : Except String Bool) ≠ Except.ok true := by
  refine ⟨rfl, rfl, rfl, rfl, rfl, ?_⟩
  intro h
  simp at h

/-- Claim C1 (amended): `CommonLib::isEqual` resolves equality by trying, in
this exact order and taking the first applicable step: (1) textual comparison
when both values are string-convertible, (2) the native `==` operator,
(3) the user-defined `equals` capability, (4) the stringify-both-and-compare
fallback; in particular, for every pair whose types are not string-convertible
but support both, `isEqual` delegates to `==`, not to `equals`. -/
theorem isEqual_resolution_order {α β : Type} (c : CompareCaps α β)
    (a : α) (b : β) (p : Bool) :
    (∀ fa fb, c.strViewA = some fa → c.strViewB = some fb →
        isEqual c a b p = Except.ok (fb b == fa a))
    ∧ ((c.strViewA = none ∨ c.strViewB = none) →
        ∀ op, c.eqOp = some op → isEqual c a b p = Except.ok (op b a))
    ∧ ((c.strViewA = none ∨ c.strViewB = none) → c.eqOp = none →
        ∀ f, c.eqFn = some f → isEqual c a b p = Except.ok (f a b))
    ∧ ((c.strViewA = none ∨ c.strViewB = none) → c.eqOp = none → c.eqFn = none →
        isEqual c a b p =
          (if p && (cppToString c.showB b == cppToString c.showA a) then
            Except.error aliasThrowMsg
          else Except.ok (cppToString c.showB b == cppToString c.showA a))) := by
  unfold isEqual
  refine ⟨?_, ?_, ?_, ?_⟩
  · intro fa fb ha hb
    rw [ha, hb]
  · rintro (h | h) op hop <;>
      rcases hA : c.strViewA with _ | fa <;> rcases hB : c.strViewB with _ | fb <;>
        simp_all [hop]
  · rintro (h | h) hop f hf <;>
      rcases hA : c.strViewA with _ | fa <;> rcases hB : c.strViewB with _ | fb <;>
        simp_all [hop, hf]
  · rintro (h | h) hop hf <;>
      rcases hA : c.strViewA with _ | fa <;> rcases hB : c.strViewB with _ | fb <;>
        simp_all [hop, hf]

/-- Witness for `isEqual_resolution_order`: at the concrete pair supporting
both `==` (false) and `equals` (true), step (2) fires and gives false. -/
theorem isEqual_resolution_order_witness :
    isEqual bothOpsCaps () () false = Except.ok false :=
  (isEqual_resolution_order bothOpsCaps () () false).2.1 (Or.inl rfl)
    (fun _ _ => false) rfl

/-- Claim C3: `CommonLib::isEqual` fails (throws) iff the alias policy is
set, only the stringify fallback is applicable (the pair is not
string-comparable, there is no `==`, and no `equals`), and the two
stringified forms match; in particular it never throws when the policy is
off, and the only error it ever produces is the alias error. -/
theorem isEqual_alias_error_iff {α β : Type} (c : CompareCaps α β)
    (a : α) (b : β) (p : Bool) (e : String) :
    isEqual c a b p = Except.error e ↔
      (e = aliasThrowMsg ∧ p = true
        ∧ (c.strViewA = none ∨ c.strViewB = none)
        ∧ c.eqOp = none ∧ c.eqFn = none
        ∧ cppToString c.showB b = cppToString c.showA a) := by
  unfold isEqual
  rcases hA : c.strViewA with _ | fa <;> rcases hB : c.strViewB with _ | fb <;>
    rcases hop : c.eqOp with _ | op <;> rcases hf : c.eqFn with _ | f <;>
      simp_all <;>
        rcases p with _ | _ <;>
          by_cases hs : cppToString c.showB b = cppToString c.showA a <;>
            simp_all [eq_comm]

/-- Witness for `isEqual_alias_error_iff`: with no capability but matching
address renderings and the policy on, `isEqual` throws the alias error. -/
theorem isEqual_alias_error_iff_witness :
    isEqual fallbackCaps () () true = Except.error aliasThrowMsg :=
  (isEqual_alias_error_iff fallbackCaps () () true aliasThrowMsg).mpr
    ⟨rfl, rfl, Or.inl rfl, rfl, rfl, rfl⟩

/-! ### Stringifier: the `bool` case (claim C5) -/

/-- The `ShowCaps` of C++ `bool`: `bool` satisfies `oStreamInsertionAbility`
(`std::ostream` has a member `operator<<(bool)`), and without
`std::boolalpha` — which tester.h never sets — `stream << b` prints
`1`/`0`.  `std::is_same<T, bool>` holds, so the dead special-case branch is
also modelled (`isBoolType`, `boolView`). -/
def boolShow : ShowCaps Bool :=
  { streamIns := some (fun b => if b then "1" else "0"),
    isBoolType := true, boolView := fun b => b,
    toStringFn := none, addrOf := fun _ => "0xb001" }

/-- Claim C5, evaluation at the failing input: `CommonLib::toString` renders
`true` as `"1"` and `false` as `"0"`, because the stream-insertion branch
precedes the boolean special case and `bool` is stream-insertable; the
special-case branch (which would print the `"true"`/`"false"` literals,
as the last two conjuncts show on a hypothetical non-insertable bool) is
unreachable for the real `bool` type. -/
theorem cppToString_bool_renders_digits :
    cppToString boolShow true = "1" ∧ cppToString boolShow false = "0"
    ∧ boolShow.isBoolType = true
    ∧ cppToString { boolShow with streamIns := none } true = "true"
    ∧ cppToString { boolShow with streamIns := none } false = "false"
    ∧ ("1" : String) ≠ "true" := by
  refine ⟨rfl, rfl, rfl, rfl, rfl, by decide⟩

/-! ### JSON string escaping (claim C7) -/

/-- The single-character pattern of the regex `R"((\\|\S|\s))"` built in
`CommonLib::escapeString` (tester.h, line 294): a backslash, a
non-whitespace character, or a whitespace character. -/
def slashRegexMatches (c : Char) : Bool :=
  c == '\\' || !c.isWhitespace || c.isWhitespace

/-- `std::regex_replace` for a pattern matching single characters: every
matching character is replaced by `repl`, the rest are kept. -/
def regexReplaceChars (p : Char → Bool) (repl : String) (s : String) : String :=
  s.toList.foldr (fun c acc => (if p c then repl else String.singleton c) ++ acc) ""

/-- `CommonLib::escapeString` (tester.h, lines 289-298): first replaces every
match of `(\\|\S|\s)` by the empty string, then escapes double quotes in
what is left.  (The `escapes` table built at lines 290-293 is never used by
the function.) -/
def escapeString (s : String) : String :=
  let temp := regexReplaceChars slashRegexMatches "" s
  regexReplaceChars (fun c => c == '"') "\\\"" temp

/-- `Printable::getJSON` (tester.h, lines 321-323): the JSON export of a
printable item; the message field goes through `escapeString`. -/
def printableGetJSON (message : String) : String :=
  "\x7b\"type\": \"printable\", \"message\": \"" ++ escapeString message ++ "\"\x7d"

/-- Claim C7, evaluation at the failing input: the regex `(\\|\S|\s)`
matches every character (everything is `\S` or `\s`), so `escapeString`
maps every message to the empty string; in particular two distinct messages
export to identical JSON, so the export does not round-trip. -/
theorem escapeString_destroys_messages :
    (∀ s, escapeString s = "")
    ∧ escapeString "hi" = ""
    ∧ printableGetJSON "hi" = printableGetJSON "bye"
    ∧ ("hi" : String) ≠ "bye" := by
  have hmatch : ∀ c : Char, slashRegexMatches c = true := by
    intro c
    unfold slashRegexMatches
    cases h : c.isWhitespace <;> simp [h]
  have h1 : ∀ l : List Char,
      l.foldr (fun c acc => (if slashRegexMatches c then "" else String.singleton c) ++ acc)
        "" = "" := by
    intro l
    induction l with
    | nil => rfl
    | cons c t ih => simp [List.foldr, hmatch c, ih]
  have hall : ∀ s, escapeString s = "" := by
    intro s
    unfold escapeString regexReplaceChars
    rw [h1 s.toList]
    rfl
  refine ⟨hall, hall "hi", ?_, by decide⟩
  unfold printableGetJSON
  rw [hall "hi", hall "bye"]

/-! ### String diff (claim C6) -/

/-- Opening of the highlight wrapped around a mismatched character pair
(`"\033[41m"`, red background) in `StringCompare::calculateDiff`. -/
def mismatchMark : String := "\x1b[41m"

/-- Opening of the highlight wrapped around an extra character past the
shorter string's end (`"\033[43m"`, yellow background). -/
def extraMark : String := "\x1b[43m"

/-- The highlight reset (`"\033[0m"`). -/
def markReset : String := "\x1b[0m"

/-- `StringCompare::calculateDiff` (tester.h, lines 385-412) on the
character lists of `expectedStr` and `actualStr`.  The C++ walks
`expectedStr` by position: while `actualStr` still has a character, equal
characters are copied unmarked to both sides, differing ones are wrapped in
the red highlight on both sides and counted; once `actualStr` is exhausted,
each remaining character of `expectedStr` is wrapped in yellow on the
expected side and counted.  A second loop then handles the case where
`actualStr` is longer: each of its remaining characters is wrapped in
yellow on the actual side, and the length difference is added to the count.
Returns `(diffExpected, diffActual, diffs)`.  The helper `markExtraActual`
is the second loop (lines 406-411): each character of `actualStr` past
`expectedStr`'s length is wrapped in the extra highlight and appended to
`diffActual`. -/
def markExtraActual : List Char → String
  | [] => ""
  | a :: as => extraMark ++ String.singleton a ++ markReset ++ markExtraActual as

def calculateDiff : List Char → List Char → String × String × Nat
  | [], a => ("", markExtraActual a, a.length)
  | e :: es, [] =>
    let r := calculateDiff es []
    (extraMark ++ String.singleton e ++ markReset ++ r.1, r.2.1, r.2.2 + 1)
  | e :: es, a :: as =>
    let r := calculateDiff es as
    if e = a then
      (String.singleton e ++ r.1, String.singleton a ++ r.2.1, r.2.2)
    else
      (mismatchMark ++ String.singleton e ++ markReset ++ r.1,
       mismatchMark ++ String.singleton a ++ markReset ++ r.2.1, r.2.2 + 1)

lemma calculateDiff_count : ∀ e a : List Char,
    (calculateDiff e a).2.2 =
      ((e.zip a).countP fun p => p.1 != p.2) + ((e.length - a.length) + (a.length - e.length))
  | [], a => by
    simp [calculateDiff]
  | e :: es, [] => by
    have ih := calculateDiff_count es []
    simp [calculateDiff] at ih ⊢
    omega
  | e :: es, a :: as => by
    have ih := calculateDiff_count es as
    by_cases h : e = a
    · simp [calculateDiff, h, List.countP_cons, ih]
    · simp [calculateDiff, h, List.countP_cons, ih]
      omega

lemma calculateDiff_self : ∀ s : List Char, calculateDiff s s = (String.mk s, String.mk s, 0)
  | [] => rfl
  | c :: t => by
    have ih := calculateDiff_self t
    simp [calculateDiff, ih]
    rfl

/-- Claim C6: the diff's mismatch count equals the number of differing
positions below the shorter length plus the length difference (every
character of the longer string past the shorter length is an extra and is
counted); `diff(s, s)` has zero mismatches and unmarked output for every
string; `diff("ab", "abcd")` yields a count of 2, with `"cd"` wrapped in
the extra highlight — distinct from the mismatch highlight — on the actual
side. -/
theorem calculateDiff_spec :
    (∀ e a : List Char,
        (calculateDiff e a).2.2 =
          ((e.zip a).countP fun p => p.1 != p.2)
            + ((e.length - a.length) + (a.length - e.length)))
    ∧ (∀ s : List Char, calculateDiff s s = (String.mk s, String.mk s, 0))
    ∧ calculateDiff "ab".toList "abcd".toList =
        ("ab", "ab" ++ extraMark ++ "c" ++ markReset ++ extraMark ++ "d" ++ markReset, 2)
    ∧ mismatchMark ≠ extraMark := by
  refine ⟨calculateDiff_count, calculateDiff_self, by decide, by decide⟩

/-! ### Formatted result messages and the Result data model -/

/-- The source-provenance data baked into a formatted result message: the
`type_name<T>()` strings (already cut by `substr(22)`), the
`std::source_location` fields, and the `ogFunction` label. -/
structure FmtCtx where
  typeNameT : String
  typeNameU : String
  fileName : String
  line : Nat
  functionName : String
  ogFunction : String

/-- `CommonLib::getStringResultOnSuccess` (tester.h, lines 142-155), with
the two values already rendered to strings and the template/source-location
data taken from `ctx`. -/
def getStringResultOnSuccess (actualStr expectedStr message : String)
    (state : Bool) (testNum : Int) (ctx : FmtCtx) : String :=
  "Test " ++ toString testNum ++ (if state then " Success" else " Failure") ++
  " \n|\t\x1b[1mwas: \x1b[0m " ++ actualStr ++
  " \t\x1b[1mexpected: \x1b[0m " ++ expectedStr ++
  " \n|\t\x1b[1mwas:\x1b[0m " ++ ctx.typeNameT ++ "\x1b[0m" ++
  "\t\x1b[1mexpected type:\x1b[0m " ++ ctx.typeNameU ++
  "\n|\t\x1b[1mat: " ++ ctx.fileName ++ ":" ++ toString ctx.line ++
  "\x1b[0m\n|\t\x1b[1mcalled in: \x1b[0m" ++ ctx.functionName ++
  "\n|\t\x1b[1mas: \x1b[0m" ++ ctx.ogFunction ++
  (if message = "" then "" else "\n|\t\x1b[1mmessage:\x1b[0m " ++ message) ++
  "\n|"

/-- An `Error` printable (tester.h, lines 348-367): a message and an error
code. -/
structure MError where
  msg : String
  code : Int
  deriving DecidableEq, Repr

/-- A `Result` printable (tester.h, lines 439-506), restricted to the fields
the claims observe: `message`, `state`, `groupNum`, `testNum`, the attached
`errors`, and the `wasValue`/`expectedValue` renderings set by
`updateInternal`. -/
structure MResult where
  msg : String
  state : Bool
  groupNum : Nat
  testNum : Nat
  errors : List MError
  wasValue : String
  expectedValue : String
  deriving DecidableEq, Repr

/-! ### Sequence runners (claims C2 and C4) -/

/-- One iteration of `TestRange::RunAllArgs` (tester.h, lines 788-841) at
zero-based iteration index `idx` (so at range value `rFrom + idx`).  The
callable is `f`, modelled as possibly throwing; `dB` is the
default-constructed local `U expected;`, whose rendering ends up in the
catch path's `updateInternal`; `emptyExpRender` is the address rendering
of the member vector `this->expected` used for the message in the
empty-expected branch.  When the callable throws, the catch block appends a
failing `Result` whose message carries the error text. -/
def rangeIterAt {α β : Type} (caps : CompareCaps α β) (ctx : FmtCtx)
    (expected : List β) (dB : β) (message : String) (messages : List String)
    (f : Int → Except String α) (rFrom : Int) (g : Nat)
    (emptyExpRender : String) (idx : Nat) : MResult :=
  let i : Int := rFrom + idx
  let suffix := if idx < messages.length then ", " ++ messages.getD idx "" else ""
  match f i with
  | Except.error e =>
    { msg := message ++ " " ++ ("Exception Thrown: " ++ e ++ " on " ++ toString i) ++ suffix,
      state := false, groupNum := g, testNum := idx + 1, errors := [],
      wasValue := "???", expectedValue := cppToString caps.showB dB }
  | Except.ok v =>
    if expected.isEmpty then
      { msg := message ++ " " ++
          getStringResultOnSuccess (cppToString caps.showA v) emptyExpRender message true i ctx
          ++ suffix,
        state := false, groupNum := g, testNum := idx + 1, errors := [],
        wasValue := cppToString caps.showA v, expectedValue := "(nothing)" }
    else
      let expVal := expected.getD (min (expected.length - 1) idx) dB
      let st := isEqualB caps v expVal
      { msg := message ++ " " ++
          getStringResultOnSuccess (cppToString caps.showA v) (cppToString caps.showB expVal)
            message st i ctx ++ suffix,
        state := st, groupNum := g, testNum := idx + 1, errors := [],
        wasValue := cppToString caps.showA v, expectedValue := cppToString caps.showB expVal }

/-- `TestRange::RunAllArgs` (tester.h, lines 788-841): iterate `i` from
`from` to `to` inclusive, appending exactly one `Result` per iteration. -/
def runRangeResults {α β : Type} (caps : CompareCaps α β) (ctx : FmtCtx)
    (expected : List β) (dB : β) (message : String) (messages : List String)
    (f : Int → Except String α) (rFrom rTo : Int) (g : Nat)
    (emptyExpRender : String) : List MResult :=
  (List.range (rTo - rFrom + 1).toNat).map
    (rangeIterAt caps ctx expected dB message messages f rFrom g emptyExpRender)

/-- `std::vector::at`: the element at `i`, or a thrown `std::out_of_range`. -/
def vecAt {γ : Type} (l : List γ) (i : Nat) : Except String γ :=
  if h : i < l.length then Except.ok (l.get ⟨i, h⟩) else Except.error "out_of_range"

/-- One iteration of `TestTwoVector::RunAllArgs` (tester.h, lines 1104-1140)
at index `i` with input element `x`.  Returns the final value of the local
variable `state` and the `Result` the iteration appends, if any: the catch
block (lines 1133-1135) only rebuilds the local message string and appends
nothing, so an iteration whose try-block throws contributes no `Result`.
The try-block throws when the callable throws, and also — when `expected`
is non-empty — when `expected.at(i)` is evaluated for the message (line
1115) with `i` out of range.  Note the comparison itself (line 1114) uses
the clamped index `min(expected.size() - 1, i)` and runs before that.
`updateInternal` in the non-empty branch renders
`this->expected.at(this->expected.size() - 1)` (line 1127). -/
def twoVecIterAt {α β γ : Type} (caps : CompareCaps γ β) (toStrInput : α → String)
    (ctx : FmtCtx) (expected : List β) (dB : β) (message : String)
    (messages : List String) (f : α → Except String γ) (g : Nat)
    (x : α) (i : Nat) : Bool × Option MResult :=
  let suffix := if i < messages.length then ", " ++ messages.getD i "" else ""
  match f x with
  | Except.error _ => (false, none)
  | Except.ok v =>
    if expected.isEmpty then
      (false, some
        { msg := "For " ++ suffix ++ ", " ++
            getStringResultOnSuccess "No exception thrown" "(nothing)" message true i
              { ctx with ogFunction := "(not specified)" },
          state := false, groupNum := g, testNum := i + 1, errors := [],
          wasValue := cppToString caps.showA v, expectedValue := "(nothing)" })
    else
      let st := isEqualB caps v (expected.getD (min (expected.length - 1) i) dB)
      match vecAt expected i with
      | Except.error _ => (st, none)
      | Except.ok ei =>
        (st, some
          { msg := "For " ++ suffix ++ ", " ++
              getStringResultOnSuccess (toStrInput x) (cppToString caps.showB ei) message st i
                { ctx with ogFunction := "(not specified)" },
            state := st, groupNum := g, testNum := i + 1, errors := [],
            wasValue := cppToString caps.showA v,
            expectedValue := cppToString caps.showB (expected.getD (expected.length - 1) dB) })

/-- `TestTwoVector::RunAllArgs` over the whole `actual` vector: each
iteration appends its `Result` when it produces one. -/
def runTwoVecResults {α β γ : Type} (caps : CompareCaps γ β) (toStrInput : α → String)
    (ctx : FmtCtx) (expected : List β) (dB : β) (message : String)
    (messages : List String) (f : α → Except String γ) (g : Nat)
    (actual : List α) (dA : α) : List MResult :=
  (List.range actual.length).filterMap
    (fun i =>
      (twoVecIterAt caps toStrInput ctx expected dB message messages f g
        (actual.getD i dA) i).2)

/-- `ShowCaps` of C++ `int`/`long long`: stream insertion prints the decimal
value. -/
def intShow : ShowCaps Int :=
  { streamIns := some (fun i => toString i), isBoolType := false,
    boolView := fun _ => false, toStringFn := none, addrOf := fun _ => "0x0" }

/-- Comparison capabilities of an `int`/`int` pair: not string-convertible,
native `operator==`, no `equals` member. -/
def intCaps : CompareCaps Int Int :=
  { showA := intShow, showB := intShow, strViewA := none, strViewB := none,
    eqOp := some (fun b a => b == a), eqFn := none }

/-- A fixed provenance context for concrete evaluations. -/
def ctx0 : FmtCtx :=
  { typeNameT := "int", typeNameU := "int", fileName := "main.cpp", line := 1,
    functionName := "int main()", ogFunction := "(not specified)" }

/-- Claim C2: in Range mode and in Paired-vector mode, the comparison at
iteration index `i` against a non-empty expected sequence of length `m`
uses `expected[min(i, m - 1)]`: the last element is reused once the
sequence is exhausted.  The last two conjuncts evaluate the spec's example:
`expected = [2,3,4]` over the 5-element range `1..5` with the identity
callable compares the 4th and 5th invocations against `4`. -/
theorem sequence_clamps_expected :
    (∀ (α β : Type) (caps : CompareCaps α β) (ctx : FmtCtx) (expected : List β) (dB : β)
        (message : String) (messages : List String) (f : Int → Except String α)
        (rFrom rTo : Int) (g : Nat) (er : String) (idx : Nat) (v : α),
        expected ≠ [] → idx < (rTo - rFrom + 1).toNat → f (rFrom + idx) = Except.ok v →
        ((runRangeResults caps ctx expected dB message messages f rFrom rTo g er)[idx]?).map
            MResult.state
          = some (isEqualB caps v (expected.getD (min idx (expected.length - 1)) dB)))
    ∧ (∀ (α β γ : Type) (caps : CompareCaps γ β) (toStrInput : α → String) (ctx : FmtCtx)
        (expected : List β) (dB : β) (message : String) (messages : List String)
        (f : α → Except String γ) (g : Nat) (x : α) (i : Nat) (v : γ),
        expected ≠ [] → f x = Except.ok v →
        (twoVecIterAt caps toStrInput ctx expected dB message messages f g x i).1
          = isEqualB caps v (expected.getD (min i (expected.length - 1)) dB))
    ∧ ((runRangeResults intCaps ctx0 [2, 3, 4] 0 "" [] (fun i => Except.ok i) 1 5 1 "").map
          MResult.expectedValue = ["2", "3", "4", "4", "4"])
    ∧ ((runRangeResults intCaps ctx0 [2, 3, 4] 0 "" [] (fun i => Except.ok i) 1 5 1 "").map
          MResult.state = [false, false, false, true, false]) := by
  refine ⟨?_, ?_, by decide, by decide⟩
  · intro α β caps ctx expected dB message messages f rFrom rTo g er idx v hne hidx hv
    unfold runRangeResults
    rw [List.getElem?_map, List.getElem?_range hidx]
    simp [rangeIterAt, hv, List.isEmpty_iff, hne, Nat.min_comm]
  · intro α β γ caps toStrInput ctx expected dB message messages f g x i v hne hv
    unfold twoVecIterAt
    rcases h : vecAt expected i with _ | ei <;>
      simp [hv, h, List.isEmpty_iff, hne, Nat.min_comm]

/-- Witness for `sequence_clamps_expected`: the 5th iteration (index 4) of
the example range run is compared against the clamped last element `4`. -/
theorem sequence_clamps_expected_witness :
    ((runRangeResults intCaps ctx0 [2, 3, 4] 0 "" [] (fun i => Except.ok i) 1 5 1 "")[4]?).map
        MResult.state
      = some (isEqualB intCaps 5 (([2, 3, 4] : List Int).getD (min 4 2) 0)) :=
  (sequence_clamps_expected).1 Int Int intCaps ctx0 [2, 3, 4] 0 "" []
    (fun i => Except.ok i) 1 5 1 "" 4 5 (by decide) (by decide) rfl

/-- Claim C4, evaluation at the failing input: with a callable that raises
"boom" at index 1 only, Range mode over `0..2` produces three Results, the
middle one failing with the caught error's text in its message, while
Paired-vector mode over inputs `[0,1,2]` with expected `[0,1,2]` produces
only two Results (test numbers 1 and 3): the Result for the raising index
is dropped by the catch block of `TestTwoVector::RunAllArgs`. -/
theorem twoVector_drops_raising_outcome :
    ((runRangeResults intCaps ctx0 [0, 1, 2] 0 "" []
          (fun i => if i = 1 then Except.error "boom" else Except.ok i) 0 2 1 "").map
        (fun r => (r.state, r.testNum))
      = [(true, 1), (false, 2), (true, 3)])
    ∧ (((runRangeResults intCaps ctx0 [0, 1, 2] 0 "" []
          (fun i => if i = 1 then Except.error "boom" else Except.ok i) 0 2 1 "")[1]?).map
        MResult.msg
      = some " Exception Thrown: boom on 1")
    ∧ ((runTwoVecResults intCaps (fun x : Int => toString x) ctx0 [0, 1, 2] 0 "" []
          (fun x : Int => if x = 1 then Except.error "boom" else Except.ok x) 1 [0, 1, 2] 0).map
        MResult.testNum
      = [1, 3]) := by
  refine ⟨by decide, by decide, by decide⟩

/-! ### The Tester aggregation core (claims C8, C9, C10) -/

/-- An item stored in a `TestResult`'s printable list: a `Result`, a
`TestMessage`, or an `Error` — the closed set of `Printable` subclasses the
Tester stores. -/
inductive PItem where
  | result (r : MResult)
  | testMessage (msg : String) (type : MessageType)
  | err (e : MError)
  deriving DecidableEq, Repr

/-- `TestResult` (tester.h, lines 565-644): one result group — its name,
ordered printables, pass/total counters and status. -/
structure GroupState where
  name : String
  printables : List PItem
  numPassing : Nat
  numTotal : Nat
  status : TestResultStatus
  deriving DecidableEq, Repr

/-- The `TestResult` constructor (tester.h, lines 576-578): a fresh group
with the given name; `status` is initialized to `SUCCESS` (line 569) and
the counters to zero. -/
def mkTestResult (testName : String) : GroupState :=
  { name := testName, printables := [], numPassing := 0, numTotal := 0,
    status := TestResultStatus.SUCCESS }

/-- The `Tester` state (tester.h, lines 1237-1251): the completed-groups
list, the current group, the group counter, and the three escalation
settings of `settingsMap` (plus `PRINT_SYNC`, which only affects live
printing and is not modelled). -/
structure TesterState where
  results : List GroupState
  current : GroupState
  groupNum : Nat
  throwOnFail : Bool
  throwOnError : Bool
  throwOnAlias : Bool
  deriving DecidableEq, Repr

/-- `Tester::addResult` (tester.h, lines 1302-1309): append the `Result` to
the current group and update its counters via
`TestResult::giveResultsState` (lines 607-610). -/
def addResult (st : TesterState) (r : MResult) : TesterState :=
  { st with current :=
      { st.current with
        printables := st.current.printables ++ [PItem.result r],
        numPassing := st.current.numPassing + (if r.state then 1 else 0),
        numTotal := st.current.numTotal + 1 } }

/-- The message of the `TestException` thrown by `testOne` under
`THROW_ON_FAIL` (tester.h, line 1353).  The `Result::getMessage` rendering
appended by the `TestException` constructor embeds wall-clock timing and is
not modelled. -/
def failNoFailsMsg : String :=
  "\x1b[38;2;255;0;0mTest failed when no fails were allowed\x1b[0m\n"

/-- The message of the `Error` note attached by `testOne` when the two
renderings coincide on a failing comparison (tester.h, line 1344); its
error code is 1. -/
def aliasNoteMsg : String :=
  "\t\tNote this test ^ may show the same address due to compiler optimizations"

/-- `Tester::testOne` (tester.h, lines 1331-1376).  The try-block computes
the comparison (which throws only the alias error), builds the formatted
message and the optional same-address `Error` note, constructs the
`Result` (consuming one group number), and then: with `THROW_ON_FAIL` set
and a failing state it sets the current group's status to `FAILURE_EARLY`
and throws a `TestException` — which its own catch at line 1359 rethrows
since `THROW_ON_FAIL` is set — so `addResult` is never reached; otherwise
it records the `Result`.  In the catch path, when any of the three throw
settings is set the exception is rethrown; otherwise a failure `Result` is
recorded and a copy with a fresh group number is returned.  Timing fields
are not modelled. -/
def testOne {α β : Type} (caps : CompareCaps α β) (ctx : FmtCtx) (a : α) (b : β)
    (message : String) (st : TesterState) : TesterState × Except String MResult :=
  match isEqual caps a b st.throwOnAlias with
  | Except.ok state =>
    let og := "testOne(" ++ ctx.typeNameT ++ " actual = " ++ cppToString caps.showA a ++ ", "
        ++ ctx.typeNameU ++ " expected = " ++ cppToString caps.showB b
        ++ ", std::string message = \"" ++ message ++ "\")"
    let args := getStringResultOnSuccess (cppToString caps.showA a) (cppToString caps.showB b)
        message state 1 { ctx with ogFunction := og }
    let errors := if cppToString caps.showB b == cppToString caps.showA a && !state then
        [{ msg := aliasNoteMsg, code := 1 }] else []
    let res : MResult :=
      { msg := args, state := state, groupNum := st.groupNum, testNum := 1,
        errors := errors, wasValue := "", expectedValue := "" }
    let st1 := { st with groupNum := st.groupNum + 1 }
    if st1.throwOnFail && !state then
      ({ st1 with current := { st1.current with status := TestResultStatus.FAILURE_EARLY } },
        Except.error failNoFailsMsg)
    else
      (addResult st1 res, Except.ok res)
  | Except.error e =>
    if st.throwOnFail || st.throwOnAlias || st.throwOnError then
      (st, Except.error e)
    else
      let args := "Test #1" ++ "\nException thrown: " ++ e
          ++ (if message = "" then "" else " | Message: " ++ message)
      let res : MResult :=
        { msg := args, state := false, groupNum := st.groupNum, testNum := 1,
          errors := [], wasValue := "", expectedValue := "" }
      let st1 := addResult { st with groupNum := st.groupNum + 1 } res
      ({ st1 with groupNum := st1.groupNum + 1 },
        Except.ok { res with groupNum := st.groupNum + 1 })

/-- `Tester::testThreadSafe` (tester.h, lines 1280-1300): park the current
group, install a fresh group named after the test, run the callable on the
tester (modelled as a state transformer that may also throw), convert a
thrown exception into a `FAIL` message plus a `FAILURE_EARLY` status on the
new group, then seal the group into the completed list and restore the
parked one. -/
def testThreadSafe (testName : String)
    (callable : TesterState → TesterState × Option String) (st : TesterState) : TesterState :=
  let saved := st.current
  let st1 := { st with current := mkTestResult testName }
  let invoked := callable st1
  let st2 :=
    match invoked.2 with
    | some emsg =>
      { invoked.1 with current :=
          { invoked.1.current with
            printables := invoked.1.current.printables ++
              [PItem.testMessage ("Test ended prematurely, exception thrown: " ++ emsg)
                MessageType.FAIL],
            status := TestResultStatus.FAILURE_EARLY } }
    | none => invoked.1
  { st2 with results := st2.results ++ [st2.current], current := saved }

/-- The state and attached notes of the most recently recorded `Result` in
the current group, if the last printable is one. -/
def lastResultData (st : TesterState) : Option (Bool × List MError) :=
  match st.current.printables.getLast? with
  | some (PItem.result r) => some (r.state, r.errors)
  | _ => none

/-- A fresh `Tester` with all settings off: `results` empty, current group
`"(default)"` (tester.h, lines 1239-1241). -/
def st0 : TesterState :=
  { results := [], current := mkTestResult "(default)", groupNum := 1,
    throwOnFail := false, throwOnError := false, throwOnAlias := false }

/-- A fresh `Tester` with `THROW_ON_FAIL` enabled. -/
def st0fail : TesterState :=
  { st0 with throwOnFail := true }

/-- Claim C8, counterexample: with `THROW_ON_FAIL` set, the failing
`testOne(1, 2)` raises and escalates the group status to `FAILURE_EARLY`,
but the failing Outcome is NOT recorded: the current group's printable list
stays empty, because the throw at tester.h line 1353 happens before the
`addResult` call at line 1356. -/
theorem testOne_throwOnFail_skips_recording_cex :
    st0fail.throwOnFail = true
    ∧ (testOne intCaps ctx0 (1 : Int) (2 : Int) "" st0fail).1.current.printables = []
    ∧ (testOne intCaps ctx0 (1 : Int) (2 : Int) "" st0fail).1.current.status
        = TestResultStatus.FAILURE_EARLY
    ∧ (testOne intCaps ctx0 (1 : Int) (2 : Int) "" st0fail).2
        = Except.error failNoFailsMsg := by
  exact ⟨rfl, rfl, rfl, rfl⟩

/-- Claim C8 (amended): a failing `testOne` is recorded as a failing
Outcome in the current group when `ThrowOnFail` is off; with `ThrowOnFail`
set, a failing `testOne` raises to the caller and escalates the current
group's status to `FAILURE_EARLY`, but it does not record the failing
Outcome (the group's printables are left untouched). -/
theorem testOne_throwOnFail_behavior {α β : Type} (caps : CompareCaps α β) (ctx : FmtCtx)
    (a : α) (b : β) (message : String) (st : TesterState)
    (hfail : isEqual caps a b st.throwOnAlias = Except.ok false) :
    (st.throwOnFail = true →
        (testOne caps ctx a b message st).1.current.printables = st.current.printables
        ∧ (testOne caps ctx a b message st).1.current.status = TestResultStatus.FAILURE_EARLY
        ∧ (testOne caps ctx a b message st).2 = Except.error failNoFailsMsg)
    ∧ (st.throwOnFail = false →
        (testOne caps ctx a b message st).1.current.printables.length
            = st.current.printables.length + 1
        ∧ (lastResultData (testOne caps ctx a b message st).1).map Prod.fst = some false
        ∧ (testOne caps ctx a b message st).1.current.status = st.current.status) := by
  constructor
  · intro hT
    unfold testOne
    rw [hfail]
    simp [hT]
  · intro hF
    unfold testOne
    rw [hfail]
    simp [hF, addResult, lastResultData]

/-- Witness for `testOne_throwOnFail_behavior`: the concrete failing
`testOne(1, 2)` with `THROW_ON_FAIL` set leaves status `FAILURE_EARLY`. -/
theorem testOne_throwOnFail_behavior_witness :
    (testOne intCaps ctx0 (1 : Int) (2 : Int) "" st0fail).1.current.status
      = TestResultStatus.FAILURE_EARLY :=
  ((testOne_throwOnFail_behavior intCaps ctx0 1 2 "" st0fail rfl).1 rfl).2.1

/-- Claim C9, counterexample: a delegated test whose callable issues no
assertions and raises no exception is sealed with status `SUCCESS`, not
`DNF` ("did not finish"): the library never assigns `DNF`. -/
theorem emptyGroup_status_success_cex :
    ((testThreadSafe "empty" (fun s => (s, none)) st0).results.map
        (fun gr => (gr.name, gr.status, gr.numTotal)))
      = [("empty", TestResultStatus.SUCCESS, 0)]
    ∧ TestResultStatus.SUCCESS ≠ TestResultStatus.DNF := by
  exact ⟨rfl, by decide⟩

/-- Claim C9 (amended): a `TestResult`'s status starts at `SUCCESS`
(tester.h, line 569), and a group sealed by `testThreadSafe` without ever
receiving a single Outcome still has status `SUCCESS` — `DNF` exists in
the status enum but is never assigned by the library. -/
theorem group_status_starts_success (name : String) (st : TesterState)
    (callable : TesterState → TesterState × Option String)
    (hpure : ∀ s, callable s = (s, none)) :
    (mkTestResult name).status = TestResultStatus.SUCCESS
    ∧ (testThreadSafe name callable st).results.getLast? = some (mkTestResult name)
    ∧ ((testThreadSafe name callable st).results.getLast?).map GroupState.status
        = some TestResultStatus.SUCCESS := by
  have h : (testThreadSafe name callable st).results.getLast? = some (mkTestResult name) := by
    unfold testThreadSafe
    simp only [hpure]
    simp
  exact ⟨rfl, h, by rw [h]; rfl⟩

/-- Witness for `group_status_starts_success`: the sealed empty group of a
no-op delegated test on a fresh tester has status `SUCCESS`. -/
theorem group_status_starts_success_witness :
    ((testThreadSafe "g" (fun s => (s, none)) st0).results.getLast?).map GroupState.status
      = some TestResultStatus.SUCCESS :=
  (group_status_starts_success "g" st0 (fun s => (s, none)) (fun _ => rfl)).2.2

lemma isEqual_false_no_error {α β : Type} (c : CompareCaps α β) (a : α) (b : β) (e : String) :
    isEqual c a b false ≠ Except.error e := by
  unfold isEqual
  rcases c.strViewA with _ | fa <;> rcases c.strViewB with _ | fb <;>
    rcases c.eqOp with _ | op <;> rcases c.eqFn with _ | f <;> simp

/-- Claim C10: when `testOne`'s comparison evaluates to `state` and the
call records an Outcome (that is, unless `ThrowOnFail` is set on a failing
state), the recorded Outcome carries exactly one attached `Error` note —
the same-address warning with error code 1 — iff the comparison failed
while the two renderings coincide, and an empty note list in every other
case. -/
theorem testOne_alias_note {α β : Type} (caps : CompareCaps α β) (ctx : FmtCtx)
    (a : α) (b : β) (message : String) (st : TesterState) (state : Bool)
    (h : isEqual caps a b st.throwOnAlias = Except.ok state)
    (hrec : st.throwOnFail = false ∨ state = true) :
    (testOne caps ctx a b message st).1.current.printables.length
        = st.current.printables.length + 1
    ∧ lastResultData (testOne caps ctx a b message st).1
        = some (state,
            if cppToString caps.showB b == cppToString caps.showA a && !state then
              [{ msg := aliasNoteMsg, code := 1 }]
            else []) := by
  unfold testOne
  rw [h]
  rcases hrec with hF | hT
  · simp [hF, addResult, lastResultData]
  · simp [hT, addResult, lastResultData]

/-- An `int`-like pair whose `operator==` always returns false: the two
renderings coincide while the comparison fails, the situation the
same-address note flags. -/
def neverEqCaps : CompareCaps Int Int :=
  { showA := intShow, showB := intShow, strViewA := none, strViewB := none,
    eqOp := some (fun _ _ => false), eqFn := none }

/-- Witness for `testOne_alias_note`: the failing comparison of `1` with
`1` under `neverEqCaps` records exactly one code-1 note. -/
theorem testOne_alias_note_witness :
    lastResultData (testOne neverEqCaps ctx0 (1 : Int) (1 : Int) "" st0).1
      = some (false,
          if cppToString neverEqCaps.showB (1 : Int) == cppToString neverEqCaps.showA (1 : Int)
              && !false then
            [{ msg := aliasNoteMsg, code := 1 }]
          else []) :=
  (testOne_alias_note neverEqCaps ctx0 1 1 "" st0 false rfl (Or.inl rfl)).2

end TesterLib
